import Mathlib

/-!
Export shims of the animated-WebP decoder library

Two translation units, both called `libwebp_animdecoder.c`, keep a fixed set of
functions of the wrapped codec library in the shared library's export table:

* `build-native/win`: a list of `pragma comment(linker, "/export:NAME")`
  directives, selected by a conditional on `_WIN64`;
* `build-native/unix`: a `main` whose body calls the functions.

Neither file computes anything, so the embedding is the text of the files as
data (lines of directives, statements of `main`) together with the small
functions that read that data: conditional inclusion, the name carried by an
`/export:` argument, the calls of a statement list.
-/

namespace WebPShim

/-! ## Directive lines -/

/-- One line of a translation unit outside function bodies. -/
inductive Line where
  /-- An inclusion line; `sys` is true for the angle-bracket form. -/
  | incl (sys : Bool) (path : String)
  /-- The line `pragma comment(kind, "arg")`. -/
  | pragmaComment (kind : String) (arg : String)
  /-- The line `ifdef name`. -/
  | ifdefLine (name : String)
  /-- The line `else`. -/
  | elseLine
  /-- The line `endif`. -/
  | endifLine
  deriving DecidableEq, Repr

/-- The file `build-native/win/libwebp_animdecoder.c`, line by line (the blank
line 4 carries nothing). -/
def winShim : List Line :=
  [ .incl true "stdio.h",
    .incl false "include/webp/decode.h",
    .incl false "include/webp/demux.h",
    .ifdefLine "_WIN64",
    .pragmaComment "linker" "/export:WebPMalloc",
    .pragmaComment "linker" "/export:WebPFree",
    .pragmaComment "linker" "/export:WebPAnimDecoderNewInternal",
    .pragmaComment "linker" "/export:WebPAnimDecoderGetInfo",
    .pragmaComment "linker" "/export:WebPAnimDecoderHasMoreFrames",
    .pragmaComment "linker" "/export:WebPAnimDecoderDelete",
    .pragmaComment "linker" "/export:WebPAnimDecoderGetNext",
    .elseLine,
    .pragmaComment "linker" "/export:_WebPMalloc",
    .pragmaComment "linker" "/export:_WebPFree",
    .pragmaComment "linker" "/export:_WebPAnimDecoderNewInternal",
    .pragmaComment "linker" "/export:_WebPAnimDecoderGetInfo",
    .pragmaComment "linker" "/export:_WebPAnimDecoderHasMoreFrames",
    .pragmaComment "linker" "/export:_WebPAnimDecoderDelete",
    .pragmaComment "linker" "/export:_WebPAnimDecoderGetNext",
    .endifLine ]

/-- Conditional inclusion.  `stack` holds, innermost first, whether each open
conditional group is currently being kept; a line is kept when every open
group is.  `defs` is the set of names defined when the file is compiled. -/
def preprocessAux (defs : List String) : List Bool → List Line → List Line
  | _, [] => []
  | stack, .ifdefLine name :: rest => preprocessAux defs (defs.contains name :: stack) rest
  | b :: stack, .elseLine :: rest => preprocessAux defs ((!b) :: stack) rest
  | [], .elseLine :: rest => preprocessAux defs [] rest
  | _ :: stack, .endifLine :: rest => preprocessAux defs stack rest
  | [], .endifLine :: rest => preprocessAux defs [] rest
  | stack, l :: rest =>
    if stack.all id then l :: preprocessAux defs stack rest
    else preprocessAux defs stack rest

/-- The lines of a file that survive conditional inclusion under `defs`. -/
def preprocess (defs : List String) (file : List Line) : List Line :=
  preprocessAux defs [] file

/-- The characters of the `/export:` option keyword. -/
def exportKey : List Char := "/export:".toList

/-- The symbol named by a linker option, when the option is an `/export:`. -/
def exportSymbol (arg : String) : Option String :=
  if exportKey.isPrefixOf arg.toList then
    some (String.mk (arg.toList.drop exportKey.length))
  else none

/-- The symbol a line asks the linker to export, if it does. -/
def Line.exported : Line → Option String
  | .pragmaComment kind arg => if kind = "linker" then exportSymbol arg else none
  | _ => none

/-- The symbols named by the `/export` directives of a list of lines, in file
order. -/
def exportNames (ls : List Line) : List String :=
  ls.filterMap Line.exported

/-- The names defined by the compiler for a Windows target: `_WIN64` on a
64-bit target, not on a 32-bit one. -/
def winDefs (win64 : Bool) : List String :=
  if win64 then ["_WIN32", "_WIN64"] else ["_WIN32"]

/-- The `/export` names of the Windows shim for the given target. -/
def winExports (win64 : Bool) : List String :=
  exportNames (preprocess (winDefs win64) winShim)

/-! ## The statements of a function body -/

/-- Expressions of the C fragment the shim is written in, with the forms that
would inspect or change a value (dereference, member access, assignment). -/
inductive CExpr where
  /-- A variable. -/
  | var (name : String)
  /-- An integer constant. -/
  | intLit (n : Int)
  /-- The address of an expression, `&e`. -/
  | addrOf (e : CExpr)
  /-- A dereference, `*e`. -/
  | deref (e : CExpr)
  /-- A member read, `e.field`. -/
  | member (e : CExpr) (field : String)
  /-- A member read through a pointer, `e->field`. -/
  | arrow (e : CExpr) (field : String)
  /-- An assignment, `lhs = rhs`. -/
  | assign (lhs rhs : CExpr)
  /-- A call `fn(args)`. -/
  | call (fn : String) (args : List CExpr)
  deriving Repr

/-- Statements of the C fragment. -/
inductive CStmt where
  /-- A local declaration `ty name;` or `ty name = init;`. -/
  | decl (ty : String) (name : String) (init : Option CExpr)
  /-- An expression statement `e;`. -/
  | expr (e : CExpr)
  /-- A conditional. -/
  | ifElse (cond : CExpr) (thenB elseB : List CStmt)
  /-- A loop. -/
  | whileLoop (cond : CExpr) (body : List CStmt)
  /-- A return statement. -/
  | ret (e : Option CExpr)
  deriving Repr

/-- A function definition. -/
structure FunDef where
  /-- The return type. -/
  retTy : String
  /-- The name of the function. -/
  name : String
  /-- The statements of the body, in order. -/
  body : List CStmt

/-- The inclusion lines of `build-native/unix/libwebp_animdecoder.c`. -/
def unixIncludes : List Line :=
  [ .incl true "stdio.h",
    .incl false "include/webp/decode.h",
    .incl false "include/webp/demux.h" ]

/-- The function `main` of `build-native/unix/libwebp_animdecoder.c`, statement
by statement.  Its body opens with the comment "Fake calls so the functions
are exported". -/
def unixMain : FunDef where
  retTy := "int"
  name := "main"
  body :=
    [ .expr (.call "WebPGetDecoderVersion" []),
      .expr (.call "WebPGetDemuxVersion" []),
      .decl "WebPData*" "data" none,
      .decl "WebPAnimDecoderOptions" "dec_options" none,
      .decl "WebPAnimDecoder*" "dec"
        (some (.call "WebPAnimDecoderNew" [.var "data", .addrOf (.var "dec_options")])),
      .decl "WebPAnimInfo*" "info" none,
      .expr (.call "WebPAnimDecoderGetInfo" [.var "dec", .var "info"]),
      .expr (.call "WebPAnimDecoderHasMoreFrames" [.var "dec"]),
      .decl "uint8_t**" "buf" none,
      .decl "int*" "timestamp" none,
      .expr (.call "WebPAnimDecoderGetNext" [.var "dec", .var "buf", .var "timestamp"]),
      .expr (.call "WebPAnimDecoderDelete" [.var "dec"]),
      .expr (.call "WebPMalloc" [.intLit 30]),
      .expr (.call "WebPFree" [.var "dec"]) ]

/-- A call as it stands in the text: the callee and the variables that occur
in its arguments. -/
structure CallSite where
  /-- The name of the called function. -/
  fn : String
  /-- The variables occurring in the argument expressions, left to right. -/
  argVars : List String
  deriving DecidableEq, Repr

mutual
/-- The variables occurring in an expression, left to right. -/
def CExpr.vars : CExpr → List String
  | .var x => [x]
  | .intLit _ => []
  | .addrOf e => e.vars
  | .deref e => e.vars
  | .member e _ => e.vars
  | .arrow e _ => e.vars
  | .assign l r => l.vars ++ r.vars
  | .call _ args => CExpr.varsList args
/-- The variables occurring in a list of expressions. -/
def CExpr.varsList : List CExpr → List String
  | [] => []
  | e :: es => e.vars ++ CExpr.varsList es
end

mutual
/-- The calls made when an expression is evaluated: those of the arguments
first, then the call itself. -/
def CExpr.callSites : CExpr → List CallSite
  | .var _ => []
  | .intLit _ => []
  | .addrOf e => e.callSites
  | .deref e => e.callSites
  | .member e _ => e.callSites
  | .arrow e _ => e.callSites
  | .assign l r => l.callSites ++ r.callSites
  | .call fn args => CExpr.callSitesList args ++ [⟨fn, CExpr.varsList args⟩]
/-- The calls of a list of expressions. -/
def CExpr.callSitesList : List CExpr → List CallSite
  | [] => []
  | e :: es => e.callSites ++ CExpr.callSitesList es
end

mutual
/-- The calls occurring in a statement, in textual order. -/
def CStmt.callSites : CStmt → List CallSite
  | .decl _ _ none => []
  | .decl _ _ (some e) => e.callSites
  | .expr e => e.callSites
  | .ifElse c t e => c.callSites ++ CStmt.callSitesList t ++ CStmt.callSitesList e
  | .whileLoop c b => c.callSites ++ CStmt.callSitesList b
  | .ret none => []
  | .ret (some e) => e.callSites
/-- The calls occurring in a list of statements, in textual order. -/
def CStmt.callSitesList : List CStmt → List CallSite
  | [] => []
  | s :: ss => s.callSites ++ CStmt.callSitesList ss
end

/-- The calls in the body of a function, in textual order. -/
def FunDef.callSites (f : FunDef) : List CallSite :=
  CStmt.callSitesList f.body

/-- The names of the functions called in the body of a function. -/
def FunDef.calledNames (f : FunDef) : List String :=
  f.callSites.map CallSite.fn

/-! ## The documented export set -/

/-- Modelled from the spec: the required export set of section 4.1 (items 1 to
8, the last being the pair of allocation helpers) and of the table of
section 6.  The set is documented by role; neither source file declares it. -/
inductive Required where
  /-- The decoder-library version query. -/
  | decoderVersion
  /-- The demuxer-library version query. -/
  | demuxVersion
  /-- The animation-decoder constructor. -/
  | animDecoderNew
  /-- The animation-decoder info accessor. -/
  | animDecoderGetInfo
  /-- The animation-decoder "has more frames" predicate. -/
  | animDecoderHasMoreFrames
  /-- The animation-decoder "get next frame" step. -/
  | animDecoderGetNext
  /-- The animation-decoder destructor. -/
  | animDecoderDelete
  /-- The allocation helper. -/
  | malloc
  /-- The release helper. -/
  | free
  deriving DecidableEq, Repr

/-- Every function of the required export set. -/
def Required.all : List Required :=
  [ .decoderVersion, .demuxVersion, .animDecoderNew, .animDecoderGetInfo,
    .animDecoderHasMoreFrames, .animDecoderGetNext, .animDecoderDelete, .malloc, .free ]

/-- Modelled from the spec: the name by which a call refers to each required
function, which is its name in the interface of the wrapped library. -/
def Required.callName : Required → String
  | .decoderVersion => "WebPGetDecoderVersion"
  | .demuxVersion => "WebPGetDemuxVersion"
  | .animDecoderNew => "WebPAnimDecoderNew"
  | .animDecoderGetInfo => "WebPAnimDecoderGetInfo"
  | .animDecoderHasMoreFrames => "WebPAnimDecoderHasMoreFrames"
  | .animDecoderGetNext => "WebPAnimDecoderGetNext"
  | .animDecoderDelete => "WebPAnimDecoderDelete"
  | .malloc => "WebPMalloc"
  | .free => "WebPFree"

/-- Modelled from the spec: the symbol under which the wrapped library defines
each required function.  The spec names the functions by role only, and the
headers of the wrapped library are not among the sources; in them the
constructor `WebPAnimDecoderNew` is an inline wrapper that hands the interface
version to `WebPAnimDecoderNewInternal`, the symbol that the library defines
and that the directives of the Windows shim name.  Every other function is
known to the linker under the name it is called by. -/
def Required.symbol : Required → String
  | .animDecoderNew => "WebPAnimDecoderNewInternal"
  | r => r.callName

/-- The two version queries (items 1 and 2 of the required export set). -/
def Required.isVersionQuery : Required → Bool
  | .decoderVersion => true
  | .demuxVersion => true
  | _ => false

/-- Modelled from the spec: the decoration of a symbol for a Windows target
(section 4.1, directive strategy): a leading underscore on a 32-bit target,
none on a 64-bit one. -/
def mangle (win64 : Bool) (sym : String) : String :=
  if win64 then sym else "_" ++ sym

/-- Whether a name begins with an underscore. -/
def beginsWithUnderscore (s : String) : Bool :=
  s.toList.head? == some '_'

/-- A 32-bit name with its leading underscore removed; a 64-bit name as it
is. -/
def unmangle (win64 : Bool) (s : String) : String :=
  if win64 then s
  else if beginsWithUnderscore s then String.mk (s.toList.drop 1) else s

/-- The `/export` names of the branch of the Windows shim kept when `_WIN64`
is defined (lines 6 to 12). -/
def win64Names : List String :=
  [ "WebPMalloc", "WebPFree", "WebPAnimDecoderNewInternal", "WebPAnimDecoderGetInfo",
    "WebPAnimDecoderHasMoreFrames", "WebPAnimDecoderDelete", "WebPAnimDecoderGetNext" ]

/-- The `/export` names of the branch kept when `_WIN64` is not defined (lines
14 to 20). -/
def win32Names : List String :=
  [ "_WebPMalloc", "_WebPFree", "_WebPAnimDecoderNewInternal", "_WebPAnimDecoderGetInfo",
    "_WebPAnimDecoderHasMoreFrames", "_WebPAnimDecoderDelete", "_WebPAnimDecoderGetNext" ]

/-! ## Reading the body of `main` -/

/-- The calls, among `cs`, that receive the variable `v` after `v` has been
handed to `destructor`: the calls that follow the first call of `destructor`
on `v` and have `v` in their arguments. -/
def usesAfterRelease (destructor v : String) : List CallSite → List CallSite
  | [] => []
  | c :: rest =>
    if c.fn = destructor ∧ v ∈ c.argVars then rest.filter (fun d => d.argVars.contains v)
    else usesAfterRelease destructor v rest

/-- The calls of `destructor` on the variable `v`. -/
def releases (destructor v : String) (cs : List CallSite) : List CallSite :=
  cs.filter (fun c => c.fn == destructor && c.argVars.contains v)

/-- The function called by an expression that is a call. -/
def CExpr.callee : CExpr → Option String
  | .call fn _ => some fn
  | _ => none

mutual
/-- Whether an expression reads or writes through a value: a dereference or a
member access, anywhere in it. -/
def CExpr.accesses : CExpr → Bool
  | .var _ => false
  | .intLit _ => false
  | .addrOf e => e.accesses
  | .deref _ => true
  | .member _ _ => true
  | .arrow _ _ => true
  | .assign l r => l.accesses || r.accesses
  | .call _ args => CExpr.accessesList args
/-- Whether some expression of a list reads or writes through a value. -/
def CExpr.accessesList : List CExpr → Bool
  | [] => false
  | e :: es => e.accesses || CExpr.accessesList es
end

mutual
/-- The assignments in an expression: each variable of a left-hand side, with
the function whose result it receives when the right-hand side is a call. -/
def CExpr.assigned : CExpr → List (String × Option String)
  | .var _ => []
  | .intLit _ => []
  | .addrOf e => e.assigned
  | .deref e => e.assigned
  | .member e _ => e.assigned
  | .arrow e _ => e.assigned
  | .assign l r => l.vars.map (fun x => (x, r.callee)) ++ l.assigned ++ r.assigned
  | .call _ args => CExpr.assignedList args
/-- The assignments in a list of expressions. -/
def CExpr.assignedList : List CExpr → List (String × Option String)
  | [] => []
  | e :: es => e.assigned ++ CExpr.assignedList es
end

mutual
/-- The locals a statement gives a value to, by an initialiser or by an
assignment, each with the function whose result it receives when the value is
the result of a call. -/
def CStmt.assigned : CStmt → List (String × Option String)
  | .decl _ _ none => []
  | .decl _ x (some e) => (x, e.callee) :: e.assigned
  | .expr e => e.assigned
  | .ifElse c t e => c.assigned ++ CStmt.assignedList t ++ CStmt.assignedList e
  | .whileLoop c b => c.assigned ++ CStmt.assignedList b
  | .ret none => []
  | .ret (some e) => e.assigned
/-- The locals a list of statements gives a value to. -/
def CStmt.assignedList : List CStmt → List (String × Option String)
  | [] => []
  | s :: ss => s.assigned ++ CStmt.assignedList ss
end

mutual
/-- Whether a statement reads or writes through a value. -/
def CStmt.accesses : CStmt → Bool
  | .decl _ _ none => false
  | .decl _ _ (some e) => e.accesses
  | .expr e => e.accesses
  | .ifElse c t e => c.accesses || CStmt.accessesList t || CStmt.accessesList e
  | .whileLoop c b => c.accesses || CStmt.accessesList b
  | .ret none => false
  | .ret (some e) => e.accesses
/-- Whether some statement of a list reads or writes through a value. -/
def CStmt.accessesList : List CStmt → Bool
  | [] => false
  | s :: ss => s.accesses || CStmt.accessesList ss
end

/-- Whether a statement is a local declaration. -/
def CStmt.isLocalDecl : CStmt → Bool
  | .decl _ _ _ => true
  | _ => false

/-- Whether a statement is a call of one of the functions `api`. -/
def CStmt.isCallOf (api : List String) : CStmt → Bool
  | .expr (.call fn _) => api.contains fn
  | _ => false

/-- Whether a statement is a branch or a loop. -/
def CStmt.isBranchOrLoop : CStmt → Bool
  | .ifElse _ _ _ => true
  | .whileLoop _ _ => true
  | _ => false

/-! ## The build step -/

/-- Modelled from the spec: the build step (section 4.1, error conditions;
section 7, missing-symbol error).  The build of a shim succeeds when every
function the shim names exists in the wrapped library, and fails to compile or
link otherwise.  `referenced` are the names the shim refers to, `provided` the
names the library declares and defines. -/
def buildSucceeds (referenced provided : List String) : Bool :=
  referenced.all (fun n => provided.contains n)

/-- The build of the Unix shim against a library that declares and defines the
functions `lib`: `main` refers to the functions it calls. -/
def unixBuilds (lib : List String) : Bool :=
  buildSucceeds unixMain.calledNames lib

/-- The build of the Windows shim for a target against a library that defines
the functions `lib`: the linker looks each `/export` name up among the
decorated symbols of the library. -/
def winBuilds (win64 : Bool) (lib : List String) : Bool :=
  buildSucceeds (winExports win64) (lib.map (mangle win64))

/-- A wrapped library that declares and defines every required function, under
the name calls use and under the symbol the library defines. -/
def fullLibrary : List String :=
  Required.all.map Required.callName ++ ["WebPAnimDecoderNewInternal"]

/-! ## Conditional inclusion on the Windows shim -/

/-- Whatever else is defined, the directives kept in the Windows shim are those
of the first branch when `_WIN64` is defined and those of the second when it
is not. -/
theorem exportNames_winShim (defs : List String) :
    exportNames (preprocess defs winShim)
      = if defs.contains "_WIN64" then win64Names else win32Names := by
  have branch : ∀ b : Bool, exportNames (preprocessAux defs [b] (winShim.drop 4))
      = if b then win64Names else win32Names := by
    intro b
    cases b <;> rfl
  exact branch (defs.contains "_WIN64")

/-! ## The Windows shim -/

/-- C1, as stated, fails: the two version queries of the required export set
are named by no `/export` directive, on the 64-bit branch and on the 32-bit
branch alike. -/
theorem win_version_queries_not_exported :
    mangle true (Required.symbol .decoderVersion) ∉ winExports true
    ∧ mangle false (Required.symbol .decoderVersion) ∉ winExports false
    ∧ mangle true (Required.symbol .demuxVersion) ∉ winExports true
    ∧ mangle false (Required.symbol .demuxVersion) ∉ winExports false := by
  decide

/-- C1, amended: whatever else is defined when the Windows shim is compiled,
every function of the required export set other than the two version queries
is named by an `/export` directive of the branch that is kept, under the
decoration of that branch (none when `_WIN64` is defined, a leading underscore
when it is not); the constructor is named by its symbol
`WebPAnimDecoderNewInternal`. -/
theorem win_exports_required (defs : List String) (r : Required)
    (hr : r.isVersionQuery = false) :
    mangle (defs.contains "_WIN64") r.symbol ∈ exportNames (preprocess defs winShim) := by
  rw [exportNames_winShim]
  cases defs.contains "_WIN64" <;> cases r <;>
    first
      | (exact absurd hr (by decide))
      | decide

/-- Witness for C1 (amended): the destructor on a 32-bit target and the
constructor on a 64-bit target. -/
theorem win_exports_required_witness :
    "_WebPAnimDecoderDelete" ∈ exportNames (preprocess ["_WIN32"] winShim)
    ∧ "WebPAnimDecoderNewInternal" ∈ exportNames (preprocess ["_WIN32", "_WIN64"] winShim) :=
  ⟨win_exports_required ["_WIN32"] .animDecoderDelete rfl,
   win_exports_required ["_WIN32", "_WIN64"] .animDecoderNew rfl⟩

/-- C4: in the Windows shim, when `_WIN64` is defined no name of an `/export`
directive that is kept begins with an underscore, and when `_WIN64` is
not defined every such name begins with one; in both cases there are such
names. -/
theorem win_underscore_by_target (defs : List String) :
    ("_WIN64" ∈ defs →
        ∀ n ∈ exportNames (preprocess defs winShim), beginsWithUnderscore n = false)
    ∧ ("_WIN64" ∉ defs →
        ∀ n ∈ exportNames (preprocess defs winShim), beginsWithUnderscore n = true)
    ∧ exportNames (preprocess defs winShim) ≠ [] := by
  rw [exportNames_winShim]
  refine ⟨fun h => ?_, fun h => ?_, ?_⟩
  · have hc : defs.contains "_WIN64" = true := by simpa using h
    rw [hc]
    decide
  · have hc : defs.contains "_WIN64" = false := by simpa using h
    rw [hc]
    decide
  · cases defs.contains "_WIN64" <;> decide

/-- Witness for C4: a 64-bit and a 32-bit set of definitions, and the first
name exported under each. -/
theorem win_underscore_by_target_witness :
    beginsWithUnderscore "WebPMalloc" = false ∧ beginsWithUnderscore "_WebPMalloc" = true :=
  ⟨(win_underscore_by_target ["_WIN32", "_WIN64"]).1 (by decide) "WebPMalloc" (by decide),
   (win_underscore_by_target ["_WIN32"]).2.1 (by decide) "_WebPMalloc" (by decide)⟩

/-- C8: the two branches of the Windows shim name the same symbols in the same
order: the list of `/export` names kept when `_WIN64` is not defined is the
list kept when it is defined with an underscore put before each element; hence
the two lists have the same length. -/
theorem win32_names_eq_map_win64 (defs32 defs64 : List String)
    (h32 : "_WIN64" ∉ defs32) (h64 : "_WIN64" ∈ defs64) :
    exportNames (preprocess defs32 winShim)
        = (exportNames (preprocess defs64 winShim)).map (fun n => "_" ++ n)
    ∧ (exportNames (preprocess defs32 winShim)).length
        = (exportNames (preprocess defs64 winShim)).length := by
  have hc32 : defs32.contains "_WIN64" = false := by simpa using h32
  have hc64 : defs64.contains "_WIN64" = true := by simpa using h64
  rw [exportNames_winShim, exportNames_winShim, hc32, hc64]
  decide

/-- Witness for C8: the definitions of a 32-bit and of a 64-bit Windows
target. -/
theorem win32_names_eq_map_win64_witness :
    winExports false = (winExports true).map (fun n => "_" ++ n)
    ∧ (winExports false).length = (winExports true).length :=
  win32_names_eq_map_win64 (winDefs false) (winDefs true) (by decide) (by decide)

/-! ## The Unix shim -/

/-- Each required function is called, by the name calls use, in `main`. -/
theorem callName_mem_calledNames (r : Required) : r.callName ∈ unixMain.calledNames := by
  cases r <;> decide

/-- C2: the body of `main` of the Unix shim calls every function of the
required export set at least once: `WebPGetDecoderVersion`,
`WebPGetDemuxVersion`, `WebPAnimDecoderNew`, `WebPAnimDecoderGetInfo`,
`WebPAnimDecoderHasMoreFrames`, `WebPAnimDecoderGetNext`,
`WebPAnimDecoderDelete`, `WebPMalloc` and `WebPFree`. -/
theorem unix_main_calls_required :
    (∀ r : Required, 1 ≤ unixMain.calledNames.count r.callName)
    ∧ Required.all.map Required.callName
        = [ "WebPGetDecoderVersion", "WebPGetDemuxVersion", "WebPAnimDecoderNew",
            "WebPAnimDecoderGetInfo", "WebPAnimDecoderHasMoreFrames",
            "WebPAnimDecoderGetNext", "WebPAnimDecoderDelete", "WebPMalloc", "WebPFree" ]
    ∧ ∀ r : Required, r ∈ Required.all := by
  refine ⟨fun r => ?_, by decide, fun r => ?_⟩
  · cases r <;> decide
  · cases r <;> decide

/-- C6, as stated, fails: the seventh call of `main` hands `dec` to the
destructor `WebPAnimDecoderDelete`, and the ninth call, `WebPFree(dec)`, hands
`dec` to a later call. -/
theorem unix_dec_used_after_delete :
    unixMain.callSites[6]? = some ⟨"WebPAnimDecoderDelete", ["dec"]⟩
    ∧ unixMain.callSites[8]? = some ⟨"WebPFree", ["dec"]⟩
    ∧ usesAfterRelease "WebPAnimDecoderDelete" "dec" unixMain.callSites ≠ [] := by
  decide

/-- C6, amended: once `dec` has been passed to the destructor
`WebPAnimDecoderDelete`, the only later call of `main` that receives it is the
closing `WebPFree(dec)`; the destructor itself receives `dec` exactly once. -/
theorem unix_dec_after_delete :
    usesAfterRelease "WebPAnimDecoderDelete" "dec" unixMain.callSites
        = [⟨"WebPFree", ["dec"]⟩]
    ∧ (releases "WebPAnimDecoderDelete" "dec" unixMain.callSites).length = 1
    ∧ ∀ (i j : Nat) (c d : CallSite), i < j →
        unixMain.callSites[i]? = some c → unixMain.callSites[j]? = some d →
        c.fn = "WebPAnimDecoderDelete" → "dec" ∈ c.argVars → "dec" ∈ d.argVars →
        d = ⟨"WebPFree", ["dec"]⟩ := by
  refine ⟨by decide, by decide, ?_⟩
  intro i j c d hij hi hj hfn _ hd
  have hlen : unixMain.callSites.length = 9 := by decide
  have hj9 : j < 9 := by
    have := (List.getElem?_eq_some.1 hj).1
    omega
  have hcs : unixMain.callSites =
      [ ⟨"WebPGetDecoderVersion", []⟩, ⟨"WebPGetDemuxVersion", []⟩,
        ⟨"WebPAnimDecoderNew", ["data", "dec_options"]⟩,
        ⟨"WebPAnimDecoderGetInfo", ["dec", "info"]⟩,
        ⟨"WebPAnimDecoderHasMoreFrames", ["dec"]⟩,
        ⟨"WebPAnimDecoderGetNext", ["dec", "buf", "timestamp"]⟩,
        ⟨"WebPAnimDecoderDelete", ["dec"]⟩, ⟨"WebPMalloc", []⟩,
        ⟨"WebPFree", ["dec"]⟩ ] := by decide
  rw [hcs] at hi hj
  interval_cases j <;> interval_cases i <;>
    simp at hi hj <;> subst hi <;> subst hj <;> simp_all

/-- Witness for C6 (amended): the seventh call, which is the destructor call,
and the ninth call, which receives `dec` after it. -/
theorem unix_dec_after_delete_witness :
    (6 < 8 ∧ unixMain.callSites[6]? = some ⟨"WebPAnimDecoderDelete", ["dec"]⟩
      ∧ unixMain.callSites[8]? = some ⟨"WebPFree", ["dec"]⟩)
    ∧ (⟨"WebPFree", ["dec"]⟩ : CallSite) = ⟨"WebPFree", ["dec"]⟩ :=
  ⟨by decide,
   unix_dec_after_delete.2.2 6 8 ⟨"WebPAnimDecoderDelete", ["dec"]⟩ ⟨"WebPFree", ["dec"]⟩
    (by decide) (by decide) (by decide) rfl (by decide) (by decide)⟩

/-- C9: `main` of the Unix shim is straight-line code that never inspects or
changes the values of the library: every statement is a local declaration or a
call of a function of the required export set, none is a branch or a loop, the
only local given a value is `dec`, from the result of the constructor, and no
expression dereferences a pointer or accesses a member. -/
theorem unix_main_straight_line :
    unixMain.body.all
        (fun s => s.isLocalDecl || s.isCallOf (Required.all.map Required.callName)) = true
    ∧ unixMain.body.any CStmt.isBranchOrLoop = false
    ∧ CStmt.assignedList unixMain.body = [("dec", some "WebPAnimDecoderNew")]
    ∧ CStmt.accessesList unixMain.body = false := by
  decide

/-! ## The two shims side by side -/

/-- C3, as stated, fails: `WebPGetDecoderVersion` is called in the `main` of the
Unix shim and is exported by neither branch of the Windows shim, and
`WebPAnimDecoderNewInternal` is exported by both branches and is not called in
`main`. -/
theorem unix_calls_ne_win_exports :
    "WebPGetDecoderVersion" ∈ unixMain.calledNames
    ∧ "WebPGetDecoderVersion" ∉ (winExports true).map (unmangle true)
    ∧ "WebPGetDecoderVersion" ∉ (winExports false).map (unmangle false)
    ∧ "WebPAnimDecoderNewInternal" ∈ (winExports true).map (unmangle true)
    ∧ "WebPAnimDecoderNewInternal" ∈ (winExports false).map (unmangle false)
    ∧ "WebPAnimDecoderNewInternal" ∉ unixMain.calledNames := by
  decide

/-- C3, amended: on either branch of the Windows shim, every `/export` name
(the 32-bit underscore removed) other than `WebPAnimDecoderNewInternal` is
called in the `main` of the Unix shim, and every function called in `main`
other than `WebPGetDecoderVersion`, `WebPGetDemuxVersion` and
`WebPAnimDecoderNew` is the name of an `/export` directive; the constructor is
called as `WebPAnimDecoderNew` in `main` and exported as
`WebPAnimDecoderNewInternal`. -/
theorem unix_calls_vs_win_exports (win64 : Bool) :
    (∀ n ∈ (winExports win64).map (unmangle win64),
        n ≠ "WebPAnimDecoderNewInternal" → n ∈ unixMain.calledNames)
    ∧ (∀ n ∈ unixMain.calledNames,
        n ∉ ["WebPGetDecoderVersion", "WebPGetDemuxVersion", "WebPAnimDecoderNew"] →
          n ∈ (winExports win64).map (unmangle win64))
    ∧ "WebPAnimDecoderNew" ∈ unixMain.calledNames
    ∧ "WebPAnimDecoderNewInternal" ∈ (winExports win64).map (unmangle win64) := by
  cases win64 <;> decide

/-- Witness for C3 (amended): `WebPMalloc` on the 32-bit branch, in both
directions. -/
theorem unix_calls_vs_win_exports_witness :
    "WebPMalloc" ∈ unixMain.calledNames
    ∧ "WebPMalloc" ∈ (winExports false).map (unmangle false) :=
  ⟨(unix_calls_vs_win_exports false).1 "WebPMalloc" (by decide) (by decide),
   (unix_calls_vs_win_exports false).2.1 "WebPMalloc" (by decide) (by decide)⟩

/-- C5: scope discipline.  Every function called in the `main` of the Unix
shim, and every name of an `/export` directive of either branch of the Windows
shim once the 32-bit underscore is removed, is a function of the required
export set (the constructor being called as `WebPAnimDecoderNew` and exported
as `WebPAnimDecoderNewInternal`); nothing else is retained by force. -/
theorem shims_within_required :
    (∀ n ∈ unixMain.calledNames, ∃ r ∈ Required.all, r.callName = n)
    ∧ (∀ win64 : Bool, ∀ n ∈ winExports win64,
        ∃ r ∈ Required.all, r.symbol = unmangle win64 n) := by
  refine ⟨by decide, fun win64 => ?_⟩
  cases win64 <;> decide

/-- Witness for C5: the last call of `main` and the third directive of the
32-bit branch. -/
theorem shims_within_required_witness :
    (∃ r ∈ Required.all, r.callName = "WebPFree")
    ∧ (∃ r ∈ Required.all, r.symbol = unmangle false "_WebPAnimDecoderNewInternal") :=
  ⟨shims_within_required.1 "WebPFree" (by decide),
   shims_within_required.2 false "_WebPAnimDecoderNewInternal" (by decide)⟩

/-! ## Building against a library that lost a function -/

/-- Decoration of symbols loses nothing: two symbols with the same decorated
name are the same. -/
theorem mangle_injective (win64 : Bool) (a b : String) (h : mangle win64 a = mangle win64 b) :
    a = b := by
  cases win64
  · have hd := congrArg String.data h
    simp only [mangle, Bool.false_eq_true, if_false, String.data_append,
      List.append_cancel_left_eq] at hd
    exact String.ext hd
  · simpa [mangle] using h

/-- A build fails as soon as one name the shim refers to is not provided. -/
theorem buildSucceeds_eq_false (referenced provided : List String) (n : String)
    (hn : n ∈ referenced) (hp : n ∉ provided) : buildSucceeds referenced provided = false := by
  cases hb : buildSucceeds referenced provided
  · rfl
  · exfalso
    apply hp
    have := List.all_eq_true.1 hb n hn
    simpa using this

/-- C7, as stated, fails: against a wrapped library that has lost
`WebPGetDecoderVersion` and nothing else, the Windows shim builds for both
targets, with that required export missing. -/
theorem win_builds_without_version_query :
    Required.callName .decoderVersion ∉ fullLibrary.erase "WebPGetDecoderVersion"
    ∧ Required.symbol .decoderVersion ∉ fullLibrary.erase "WebPGetDecoderVersion"
    ∧ winBuilds true (fullLibrary.erase "WebPGetDecoderVersion") = true
    ∧ winBuilds false (fullLibrary.erase "WebPGetDecoderVersion") = true := by
  decide

/-- C7, amended: the build of the Unix shim fails against a wrapped library
that lacks the name `main` calls any function of the required export set by,
and the build of the Windows shim fails, for either target, against a wrapped
library that lacks the symbol of any function of the required export set other
than the two version queries; against a library that has them all, the three
builds succeed. -/
theorem build_fails_on_missing_function (r : Required) (lib : List String) :
    (r.callName ∉ lib → unixBuilds lib = false)
    ∧ (r.isVersionQuery = false → r.symbol ∉ lib → ∀ win64, winBuilds win64 lib = false)
    ∧ unixBuilds fullLibrary = true
    ∧ winBuilds true fullLibrary = true ∧ winBuilds false fullLibrary = true := by
  refine ⟨fun h => ?_, fun hr h win64 => ?_, by decide, by decide, by decide⟩
  · exact buildSucceeds_eq_false _ _ _ (callName_mem_calledNames r) h
  · apply buildSucceeds_eq_false _ _ (mangle win64 r.symbol)
    · cases win64 <;> cases r <;>
        first
          | (exact absurd hr (by decide))
          | decide
    · intro hm
      obtain ⟨x, hx, hxe⟩ := List.mem_map.1 hm
      exact h (mangle_injective win64 _ _ hxe ▸ hx)

/-- Witness for C7 (amended): a library without the destructor. -/
theorem build_fails_on_missing_function_witness :
    unixBuilds (fullLibrary.erase "WebPAnimDecoderDelete") = false
    ∧ winBuilds false (fullLibrary.erase "WebPAnimDecoderDelete") = false :=
  ⟨(build_fails_on_missing_function .animDecoderDelete
      (fullLibrary.erase "WebPAnimDecoderDelete")).1 (by decide),
   (build_fails_on_missing_function .animDecoderDelete
      (fullLibrary.erase "WebPAnimDecoderDelete")).2.1 rfl (by decide) false⟩

end WebPShim
